import Mathlib

/-!
Verification development for the QuickSight/Okta governance Lambdas.

The development shallowly embeds the three Python modules
`qs_user_gov.py`, `qs_asset_gov.py` and `get_okta_info.py`.  Remote API
effects are modelled as an explicit trace of calls; the responses of the
remote services (QuickSight, S3) are supplied by a `World` record, so the
reconciliation logic becomes a pure function from a world and a manifest
to the trace of calls it issues.
-/

/-- Environment-variable configuration shared by the user-governance module:
OKTA_ROLE_NAME, OKTA_GROUP_QS_PREFIX, QS_ADMIN_OKTA_GROUP,
QS_AUTHOR_OKTA_GROUP, QS_READER_OKTA_GROUP. -/
structure Config where
  oktaRoleName : String
  qsPref : String
  adminGroup : String
  authorGroup : String
  readerGroup : String
deriving DecidableEq

/-- The `OktaUser` dataclass fields that come straight from the manifest
record plus the two fields injected by `get_user_manifest`.  The field
`ns` embeds the Python field named namespace (a reserved word here). -/
structure OktaUser where
  username : String
  email : String
  groups : List String
  account_id : String
  ns : String
deriving DecidableEq

/-- Python `str.startswith`, expressed on the character lists of the two
strings so that it evaluates by kernel reduction. -/
def startsWithPy (s pre : String) : Bool :=
  pre.toList.isPrefixOf s.toList

/-- Derived field `qs_username` from `OktaUser.__post_init__`:
`f"{OKTA_ROLE_NAME}/{self.username}"`. -/
def qs_username (cfg : Config) (u : OktaUser) : String :=
  cfg.oktaRoleName ++ "/" ++ u.username

/-- Derived field `qs_groups` from `OktaUser.__post_init__`: the groups of
the user that start with the configured QuickSight group prefix. -/
def qs_groups (cfg : Config) (u : OktaUser) : List String :=
  u.groups.filter (fun grp => startsWithPy grp cfg.qsPref)

/-- Derived field `qs_role` from `OktaUser.__post_init__`: priority lookup
admin, then author, then reader, else the empty string. -/
def qs_role (cfg : Config) (u : OktaUser) : String :=
  if cfg.adminGroup ∈ qs_groups cfg u then "ADMIN"
  else if cfg.authorGroup ∈ qs_groups cfg u then "AUTHOR"
  else if cfg.readerGroup ∈ qs_groups cfg u then "READER"
  else ""

/-- One QuickSight API call issued by the user-governance module, with the
arguments that identify it. -/
inductive UserCall where
  | describeNamespace (ns : String)
  | createNamespace (ns : String)
  | describeUser (uname ns : String)
  | registerUser (email role iamArn ns : String)
  | deleteUser (uname ns : String)
  | updateUser (uname ns role email : String)
  | describeGroup (grp ns : String)
  | createGroup (grp ns : String)
  | listUserGroups (uname ns : String)
  | createGroupMembership (member grp ns : String)
  | deleteGroupMembership (member grp ns : String)
deriving DecidableEq

/-- Outcome of a single remote API call: success, or a botocore
`ClientError` carrying an error code. -/
inductive ApiResult where
  | ok
  | clientError (code : String)
deriving DecidableEq

/-- Responses of the QuickSight API as seen by one `apply_user_governance`
pass over a single user. -/
structure UserWorld where
  namespaceExists : Bool
  userExists : Bool
  updateUserResult : ApiResult
  groupExists : String → Bool
  userGroupList : List String

/-- Embedding of `create_if_not_exists_namespace`: describe the namespace
and, when the describe raises `ClientError`, create it. -/
def create_if_not_exists_namespace (w : UserWorld) (u : OktaUser) : List UserCall :=
  if w.namespaceExists then
    [UserCall.describeNamespace u.ns]
  else
    [UserCall.describeNamespace u.ns, UserCall.createNamespace u.ns]

/-- Embedding of `register_if_not_exists_user`: describe the user and, when
the describe raises `ClientError` and the resolved role is non-empty
(Python truthiness of `user.qs_role`), register the user. -/
def register_if_not_exists_user (cfg : Config) (w : UserWorld) (u : OktaUser) : List UserCall :=
  if w.userExists then
    [UserCall.describeUser (qs_username cfg u) u.ns]
  else if qs_role cfg u = "" then
    [UserCall.describeUser (qs_username cfg u) u.ns]
  else
    [UserCall.describeUser (qs_username cfg u) u.ns,
     UserCall.registerUser u.email (qs_role cfg u)
       ("arn:aws:iam::" ++ u.account_id ++ ":role/" ++ cfg.oktaRoleName) u.ns]

/-- Embedding of `update_role`: issue `update_user`; on success return
`true`; on `ClientError` with code ResourceNotFoundException or
InvalidParameterValueException also issue `delete_user`; in every failure
case return `false`. -/
def update_role (cfg : Config) (w : UserWorld) (u : OktaUser) : List UserCall × Bool :=
  let upd := UserCall.updateUser (qs_username cfg u) u.ns (qs_role cfg u) u.email
  match w.updateUserResult with
  | ApiResult.ok => ([upd], true)
  | ApiResult.clientError code =>
      if code = "ResourceNotFoundException" ∨ code = "InvalidParameterValueException" then
        ([upd, UserCall.deleteUser (qs_username cfg u) u.ns], false)
      else
        ([upd], false)

/-- Embedding of `create_if_not_exists_groups`: for each prefixed group,
describe it and, when the describe raises `ClientError`, create it. -/
def create_if_not_exists_groups (cfg : Config) (w : UserWorld) (u : OktaUser) : List UserCall :=
  ((qs_groups cfg u).map (fun grp =>
    if w.groupExists grp then
      [UserCall.describeGroup grp u.ns]
    else
      [UserCall.describeGroup grp u.ns, UserCall.createGroup grp u.ns])).flatten

/-- Embedding of `update_memberships` (which begins by calling
`get_memberships`, i.e. `list_user_groups`): create a membership for each
prefixed group not already held, then delete each held membership whose
group is not among the prefixed groups. -/
def update_memberships (cfg : Config) (w : UserWorld) (u : OktaUser) : List UserCall :=
  let current := w.userGroupList
  UserCall.listUserGroups (qs_username cfg u) u.ns ::
    ((qs_groups cfg u).filter (fun grp => decide (grp ∉ current))).map
      (fun grp => UserCall.createGroupMembership (qs_username cfg u) grp u.ns) ++
    (current.filter (fun grp => decide (grp ∉ qs_groups cfg u))).map
      (fun grp => UserCall.deleteGroupMembership (qs_username cfg u) grp u.ns)

/-- Embedding of `apply_user_governance`: namespace check, registration
check, role update, and, only when the role update succeeded and the user
has at least one prefixed group, group creation and membership sync. -/
def apply_user_governance (cfg : Config) (w : UserWorld) (u : OktaUser) : List UserCall :=
  let ur := update_role cfg w u
  create_if_not_exists_namespace w u ++
  register_if_not_exists_user cfg w u ++
  ur.1 ++
  (if ur.2 ∧ qs_groups cfg u ≠ [] then
    create_if_not_exists_groups cfg w u ++ update_memberships cfg w u
  else [])

/-- Raw user record of the user-governance manifest JSON. -/
structure RawUser where
  username : String
  email : String
  groups : List String
deriving DecidableEq

/-- Embedding of `get_user_manifest`: on a `ClientError` from
`s3.get_object` the users collection stays empty and an empty list is
returned; otherwise every record gets the account id and the namespace
"default" injected and becomes an `OktaUser`. -/
def get_user_manifest (accountId : String) (fetch : Except String (List RawUser)) :
    List OktaUser :=
  match fetch with
  | Except.error _ => []
  | Except.ok raws =>
      raws.map (fun r => OktaUser.mk r.username r.email r.groups accountId "default")

/-- Embedding of the user-governance `handler` body: build the manifest and
run `apply_user_governance` over it in order.  The result pairs the trace
of calls with the HTTP status code of the response (200 on success). -/
def user_handler (cfg : Config) (w : UserWorld) (accountId : String)
    (fetch : Except String (List RawUser)) : List UserCall × Nat :=
  (((get_user_manifest accountId fetch).map (apply_user_governance cfg w)).flatten, 200)

/-- True exactly on `delete_user` calls. -/
def UserCall.isDeleteUser : UserCall → Bool
  | UserCall.deleteUser _ _ => true
  | _ => false

/-- True exactly on `register_user` calls. -/
def UserCall.isRegisterUser : UserCall → Bool
  | UserCall.registerUser _ _ _ _ => true
  | _ => false

/-- True exactly on `create_group` calls. -/
def UserCall.isCreateGroup : UserCall → Bool
  | UserCall.createGroup _ _ => true
  | _ => false

/-- True exactly on `create_group_membership` calls. -/
def UserCall.isCreateMembership : UserCall → Bool
  | UserCall.createGroupMembership _ _ _ => true
  | _ => false

/-- True exactly on `delete_group_membership` calls. -/
def UserCall.isDeleteMembership : UserCall → Bool
  | UserCall.deleteGroupMembership _ _ _ => true
  | _ => false

/-- True on any group-membership mutation call. -/
def UserCall.isMembershipOp (c : UserCall) : Bool :=
  c.isCreateMembership || c.isDeleteMembership

/-- True exactly on `update_user` calls. -/
def UserCall.isUpdateUser : UserCall → Bool
  | UserCall.updateUser _ _ _ _ => true
  | _ => false

/-- The `QuickSightAsset` dataclass of the asset-governance module.  The
field `ns` embeds the Python field named namespace. -/
structure QuickSightAsset where
  name : String
  category : String
  ns : String
  groups : List String
  permission : String
  account_id : String
deriving DecidableEq

/-- One entry of the DataSetSummaries listing: the two keys the module
reads, Name and DataSetId. -/
structure DataSetSummary where
  dsName : String
  dsId : String
deriving DecidableEq

/-- One entry of a describe_data_set_permissions response: Principal and
Actions. -/
structure DsPermission where
  principal : String
  actions : List String
deriving DecidableEq

/-- One QuickSight API call issued by the asset-governance module.  A
grant carries the Actions value as the module built it: the Python code
initialises actions to the empty string and only replaces it with the READ
action list when the permission is "READ". -/
inductive PyActions where
  | pystr (s : String)
  | pylist (l : List String)
deriving DecidableEq

/-- Permission-related QuickSight calls of the asset-governance module. -/
inductive AssetCall where
  | describeDataSetPermissions (dsId : String)
  | revokePermission (dsId principal : String) (actions : List String)
  | grantPermission (dsId principal : String) (actions : PyActions)
deriving DecidableEq

/-- The fixed READ_ACTIONS list of the asset-governance module. -/
def READ_ACTIONS : List String :=
  ["quicksight:DescribeDataSet",
   "quicksight:DescribeDataSetPermissions",
   "quicksight:PassDataSet",
   "quicksight:DescribeIngestion",
   "quicksight:ListIngestions"]

/-- Responses of the QuickSight API as seen by the asset-governance run:
for each DataSetId, either the permission list of the dataset or the
error code of the `ClientError` raised by describe_data_set_permissions. -/
structure AssetWorld where
  describePerms : String → Except String (List DsPermission)

/-- Python substring membership `sub in s`. -/
def containsSub (s sub : String) : Bool :=
  s.toList.tails.any (fun t => sub.toList.isPrefixOf t)

/-- Embedding of `get_dataset_id`: first dataset of the listing whose Name
equals the asset name, defaulting to the empty string. -/
def get_dataset_id (asset : QuickSightAsset) (all_datasets : List DataSetSummary) : String :=
  match all_datasets.find? (fun dset => dset.dsName = asset.name) with
  | some dset => dset.dsId
  | none => ""

/-- Embedding of `reset_dataset_permissions`.  The describe call is not
wrapped in any try block, so its `ClientError` propagates: the Bool of the
result is false exactly when the function raised.  When the describe
succeeds, a revoke is issued for every permission entry whose Principal
contains the substring "group"; failures of the revoke calls themselves
are caught and only logged, so they leave the trace and continue. -/
def reset_dataset_permissions (w : AssetWorld) (dsId : String) :
    List AssetCall × Bool :=
  match w.describePerms dsId with
  | Except.error _ => ([AssetCall.describeDataSetPermissions dsId], false)
  | Except.ok perms =>
      (AssetCall.describeDataSetPermissions dsId ::
        (perms.filter (fun p => containsSub p.principal "group")).map
          (fun p => AssetCall.revokePermission dsId p.principal p.actions),
       true)

/-- Principal ARN built by `apply_dataset_governance` for a group. -/
def principalArn (region : String) (asset : QuickSightAsset) (group : String) : String :=
  "arn:aws:quicksight:" ++ region ++ ":" ++ asset.account_id ++ ":group/" ++
    asset.ns ++ "/" ++ group

/-- Embedding of `apply_dataset_governance`: one grant per listed group,
with the READ action list when the permission is "READ" and the initial
empty-string actions value otherwise.  `ClientError` from the grant call is
caught and only logged, so every grant is issued and none aborts. -/
def apply_dataset_governance (region : String) (asset : QuickSightAsset) (dsId : String) :
    List AssetCall :=
  let actions := if asset.permission = "READ" then PyActions.pylist READ_ACTIONS
                 else PyActions.pystr ""
  asset.groups.map (fun group =>
    AssetCall.grantPermission dsId (principalArn region asset group) actions)

/-- One iteration of the handler loop for a single asset: only the
"dataset" category is handled; the dataset id is resolved, permissions are
reset, and when the reset did not raise, the grants are applied. -/
def process_asset (w : AssetWorld) (region : String) (all_datasets : List DataSetSummary)
    (asset : QuickSightAsset) : List AssetCall × Bool :=
  if asset.category = "dataset" then
    let dsId := get_dataset_id asset all_datasets
    let r := reset_dataset_permissions w dsId
    if r.2 then (r.1 ++ apply_dataset_governance region asset dsId, true)
    else (r.1, false)
  else ([], true)

/-- The handler loop of the asset-governance module over the manifest: an
uncaught exception in any iteration aborts the loop, the remaining assets
are not processed, and the handler re-raises with the failure response. -/
def run_asset_governance (w : AssetWorld) (region : String)
    (all_datasets : List DataSetSummary) : List QuickSightAsset → List AssetCall × Bool
  | [] => ([], true)
  | asset :: rest =>
      let r := process_asset w region all_datasets asset
      if r.2 then
        let r2 := run_asset_governance w region all_datasets rest
        (r.1 ++ r2.1, r2.2)
      else (r.1, false)

/-- Raw asset record of the asset-governance manifest JSON. -/
structure RawAsset where
  name : String
  category : String
  ns : String
  groups : List String
  permission : String
deriving DecidableEq

/-- Embedding of `get_asset_manifest`: on a `ClientError` from
`s3.get_object` the assets collection stays empty and an empty list is
returned; otherwise every record gets the account id injected. -/
def get_asset_manifest (accountId : String) (fetch : Except String (List RawAsset)) :
    List QuickSightAsset :=
  match fetch with
  | Except.error _ => []
  | Except.ok raws =>
      raws.map (fun r => QuickSightAsset.mk r.name r.category r.ns r.groups r.permission accountId)

/-- Embedding of the asset-governance `handler` body: build the manifest,
run the loop, and answer 200 on success or 400 (the failure response of
the re-raised exception) otherwise.  The dataset listing obtained by
`get_all_datasets` is a read-only input and issues no mutation. -/
def asset_handler (w : AssetWorld) (region : String) (all_datasets : List DataSetSummary)
    (accountId : String) (fetch : Except String (List RawAsset)) : List AssetCall × Nat :=
  let r := run_asset_governance w region all_datasets (get_asset_manifest accountId fetch)
  (r.1, if r.2 then 200 else 400)

/-- True exactly on grant calls. -/
def AssetCall.isGrant : AssetCall → Bool
  | AssetCall.grantPermission _ _ _ => true
  | _ => false

/-- True exactly on revoke calls. -/
def AssetCall.isRevoke : AssetCall → Bool
  | AssetCall.revokePermission _ _ _ => true
  | _ => false

/-- An Okta API user record as read by the fetcher: the id used for the
group lookup, the credentials userName, and the profile email attribute
that the Okta API also serves. -/
structure OktaApiUser where
  id : String
  credentialsUserName : String
  profileEmail : String
deriving DecidableEq

/-- An Okta API group record as read by the fetcher: the profile name. -/
structure OktaApiGroup where
  profileName : String
deriving DecidableEq

/-- One user record of the manifest the fetcher uploads. -/
structure ManifestUser where
  username : String
  email : String
  groups : List String
deriving DecidableEq

/-- Embedding of `build_user_governance_manifest` (with `get_users_groups`
supplied as the lookup from an Okta user id to its group memberships):
both the username and the email of each manifest record are taken from the
credentials userName of the Okta user. -/
def build_user_governance_manifest (getGroups : String → List OktaApiGroup)
    (users : List OktaApiUser) : List ManifestUser :=
  users.map (fun usr =>
    ManifestUser.mk usr.credentialsUserName usr.credentialsUserName
      ((getGroups usr.id).map (fun grp => grp.profileName)))

/-- Example configuration: the role-group names used throughout the
repository samples, with prefix qs_role. -/
def cfgEx : Config :=
  ⟨"QSGovernanceRole", "qs_role", "qs_role_admin", "qs_role_author", "qs_role_reader"⟩

/-- Example user: the single record of the end-to-end scenario manifest. -/
def userEx : OktaUser :=
  ⟨"a@x.com", "a@x.com", ["qs_role_reader"], "123456789012", "default"⟩

/-- Claim C2: role resolution is the static priority lookup over the
prefix-filtered groups, so every user resolves to at most one role. -/
theorem claim_C2 (cfg : Config) (u : OktaUser) :
    qs_groups cfg u = u.groups.filter (fun grp => startsWithPy grp cfg.qsPref) ∧
    (cfg.adminGroup ∈ qs_groups cfg u → qs_role cfg u = "ADMIN") ∧
    (cfg.adminGroup ∉ qs_groups cfg u → cfg.authorGroup ∈ qs_groups cfg u →
      qs_role cfg u = "AUTHOR") ∧
    (cfg.adminGroup ∉ qs_groups cfg u → cfg.authorGroup ∉ qs_groups cfg u →
      cfg.readerGroup ∈ qs_groups cfg u → qs_role cfg u = "READER") ∧
    (cfg.adminGroup ∉ qs_groups cfg u → cfg.authorGroup ∉ qs_groups cfg u →
      cfg.readerGroup ∉ qs_groups cfg u → qs_role cfg u = "") ∧
    (qs_role cfg u = "ADMIN" ∨ qs_role cfg u = "AUTHOR" ∨
      qs_role cfg u = "READER" ∨ qs_role cfg u = "") := by
  refine ⟨rfl, ?_, ?_, ?_, ?_, ?_⟩ <;> unfold qs_role <;> intros <;>
    split_ifs <;> simp_all

/-- Witness for C2: the example user resolves to READER. -/
theorem claim_C2_witness : qs_role cfgEx userEx = "READER" :=
  (claim_C2 cfgEx userEx).2.2.2.1 (by decide) (by decide) (by decide)

/-- Claim C1: when update_user raises ResourceNotFoundException or
InvalidParameterValueException, exactly one delete_user call is issued for
the user and no group creation and no group membership call. -/
theorem claim_C1 (cfg : Config) (w : UserWorld) (u : OktaUser) (code : String)
    (h : w.updateUserResult = ApiResult.clientError code)
    (hc : code = "ResourceNotFoundException" ∨ code = "InvalidParameterValueException") :
    (apply_user_governance cfg w u).countP UserCall.isDeleteUser = 1 ∧
    (apply_user_governance cfg w u).countP UserCall.isCreateGroup = 0 ∧
    (apply_user_governance cfg w u).countP UserCall.isMembershipOp = 0 := by
  have hur : update_role cfg w u =
      ([UserCall.updateUser (qs_username cfg u) u.ns (qs_role cfg u) u.email,
        UserCall.deleteUser (qs_username cfg u) u.ns], false) := by
    rcases hc with rfl | rfl <;> simp [update_role, h]
  by_cases hn : w.namespaceExists <;> by_cases hu : w.userExists <;>
    by_cases hr : qs_role cfg u = "" <;>
      simp [apply_user_governance, hur, create_if_not_exists_namespace,
        register_if_not_exists_user, hn, hu, hr, List.countP_cons, List.countP_append,
        UserCall.isDeleteUser, UserCall.isCreateGroup, UserCall.isMembershipOp,
        UserCall.isCreateMembership, UserCall.isDeleteMembership]

/-- Witness for C1: a concrete world whose update_user call raises
ResourceNotFoundException. -/
theorem claim_C1_witness :
    (apply_user_governance cfgEx
        ⟨true, true, ApiResult.clientError "ResourceNotFoundException", fun _ => true, []⟩
        userEx).countP UserCall.isDeleteUser = 1 ∧
    (apply_user_governance cfgEx
        ⟨true, true, ApiResult.clientError "ResourceNotFoundException", fun _ => true, []⟩
        userEx).countP UserCall.isCreateGroup = 0 ∧
    (apply_user_governance cfgEx
        ⟨true, true, ApiResult.clientError "ResourceNotFoundException", fun _ => true, []⟩
        userEx).countP UserCall.isMembershipOp = 0 :=
  claim_C1 cfgEx _ userEx "ResourceNotFoundException" rfl (Or.inl rfl)

/-- Claim C6: a user whose groups contain none of the recognized
role-group names resolves to the empty role, and (the QuickSight API
rejecting an update_user with an empty role) no register_user, no
create_group and no membership call is issued for that user. -/
theorem claim_C6 (cfg : Config) (w : UserWorld) (u : OktaUser)
    (ha : cfg.adminGroup ∉ u.groups) (hb : cfg.authorGroup ∉ u.groups)
    (hr : cfg.readerGroup ∉ u.groups)
    (hupd : w.updateUserResult ≠ ApiResult.ok) :
    qs_role cfg u = "" ∧
    (apply_user_governance cfg w u).countP UserCall.isRegisterUser = 0 ∧
    (apply_user_governance cfg w u).countP UserCall.isCreateGroup = 0 ∧
    (apply_user_governance cfg w u).countP UserCall.isMembershipOp = 0 := by
  have hsub : ∀ g, g ∈ qs_groups cfg u → g ∈ u.groups := by
    intro g hg
    exact (List.mem_filter.mp hg).1
  have hrole : qs_role cfg u = "" := by
    unfold qs_role
    rw [if_neg (fun hmem => ha (hsub _ hmem)), if_neg (fun hmem => hb (hsub _ hmem)),
        if_neg (fun hmem => hr (hsub _ hmem))]
  refine ⟨hrole, ?_⟩
  rcases hw : w.updateUserResult with _ | code
  · exact absurd hw hupd
  · by_cases hcode : code = "ResourceNotFoundException" ∨
        code = "InvalidParameterValueException" <;>
      by_cases hn : w.namespaceExists <;> by_cases hu2 : w.userExists <;>
        simp [apply_user_governance, update_role, hw, hcode, hrole,
          create_if_not_exists_namespace, register_if_not_exists_user, hn, hu2,
          List.countP_cons, List.countP_append, UserCall.isRegisterUser,
          UserCall.isCreateGroup, UserCall.isMembershipOp,
          UserCall.isCreateMembership, UserCall.isDeleteMembership,
          UserCall.isDeleteUser]

/-- Witness for C6: a user whose only group is Everyone, against a world
that rejects the empty-role update with InvalidParameterValueException. -/
theorem claim_C6_witness :
    qs_role cfgEx ⟨"b@x.com", "b@x.com", ["Everyone"], "123456789012", "default"⟩ = "" ∧
    (apply_user_governance cfgEx
        ⟨true, true, ApiResult.clientError "InvalidParameterValueException", fun _ => true, []⟩
        ⟨"b@x.com", "b@x.com", ["Everyone"], "123456789012", "default"⟩).countP
      UserCall.isRegisterUser = 0 ∧
    (apply_user_governance cfgEx
        ⟨true, true, ApiResult.clientError "InvalidParameterValueException", fun _ => true, []⟩
        ⟨"b@x.com", "b@x.com", ["Everyone"], "123456789012", "default"⟩).countP
      UserCall.isCreateGroup = 0 ∧
    (apply_user_governance cfgEx
        ⟨true, true, ApiResult.clientError "InvalidParameterValueException", fun _ => true, []⟩
        ⟨"b@x.com", "b@x.com", ["Everyone"], "123456789012", "default"⟩).countP
      UserCall.isMembershipOp = 0 :=
  claim_C6 cfgEx _ _ (by decide) (by decide) (by decide) (by decide)

/-- Claim C4: when the current QuickSight memberships of a user coincide
with the prefix-filtered manifest groups, a further run of the membership
reconciliation issues no create_group_membership and no
delete_group_membership call. -/
theorem claim_C4 (cfg : Config) (w : UserWorld) (u : OktaUser)
    (h : ∀ g, g ∈ w.userGroupList ↔ g ∈ qs_groups cfg u) :
    (update_memberships cfg w u).countP UserCall.isCreateMembership = 0 ∧
    (update_memberships cfg w u).countP UserCall.isDeleteMembership = 0 := by
  have h1 : (qs_groups cfg u).filter (fun grp => decide (grp ∉ w.userGroupList)) = [] := by
    refine List.filter_eq_nil_iff.mpr ?_
    intro a ha
    simp [(h a).mpr ha]
  have h2 : (w.userGroupList).filter (fun grp => decide (grp ∉ qs_groups cfg u)) = [] := by
    refine List.filter_eq_nil_iff.mpr ?_
    intro a ha
    simp [(h a).mp ha]
  simp [update_memberships, h1, h2, UserCall.isCreateMembership,
    UserCall.isDeleteMembership]
  exact ⟨fun a ha => (h a).mpr ha, fun a ha => (h a).mp ha⟩

/-- Witness for C4: a world whose membership listing already equals the
prefix-filtered groups of the example user. -/
theorem claim_C4_witness :
    (update_memberships cfgEx
        ⟨true, true, ApiResult.ok, fun _ => true, qs_groups cfgEx userEx⟩ userEx).countP
      UserCall.isCreateMembership = 0 ∧
    (update_memberships cfgEx
        ⟨true, true, ApiResult.ok, fun _ => true, qs_groups cfgEx userEx⟩ userEx).countP
      UserCall.isDeleteMembership = 0 :=
  claim_C4 cfgEx _ userEx (fun _ => Iff.rfl)

/-- World of the end-to-end scenario of claim C8: the namespace exists, the
user does not exist yet, update_user succeeds, no group exists yet and the
fresh user holds no membership. -/
def worldC8 : UserWorld := ⟨true, false, ApiResult.ok, fun _ => false, []⟩

/-- Claim C8: the single-reader-manifest scenario registers the user with
role READER, ensures group qs_role_reader and creates its membership, with
exactly one register, one role update, one group creation and one
membership creation. -/
theorem claim_C8 :
    qs_role cfgEx userEx = "READER" ∧
    (apply_user_governance cfgEx worldC8 userEx).countP UserCall.isRegisterUser = 1 ∧
    (apply_user_governance cfgEx worldC8 userEx).countP UserCall.isUpdateUser = 1 ∧
    (apply_user_governance cfgEx worldC8 userEx).countP UserCall.isCreateGroup = 1 ∧
    (apply_user_governance cfgEx worldC8 userEx).countP UserCall.isCreateMembership = 1 ∧
    UserCall.describeNamespace "default" ∈ apply_user_governance cfgEx worldC8 userEx ∧
    UserCall.createGroup "qs_role_reader" "default" ∈
      apply_user_governance cfgEx worldC8 userEx ∧
    UserCall.createGroupMembership (qs_username cfgEx userEx) "qs_role_reader" "default" ∈
      apply_user_governance cfgEx worldC8 userEx := by
  decide

/-- Claim C3: for a dataset asset whose permission describe succeeds, the
trace of the iteration splits into a first part free of grants followed by
a part free of revokes, and every existing permission whose principal
contains "group" is revoked in the first part: the full reset precedes
every grant, on every run. -/
theorem claim_C3 (w : AssetWorld) (region : String) (all_datasets : List DataSetSummary)
    (asset : QuickSightAsset) (perms : List DsPermission)
    (hcat : asset.category = "dataset")
    (hdesc : w.describePerms (get_dataset_id asset all_datasets) = Except.ok perms) :
    ∃ pre post,
      (process_asset w region all_datasets asset).1 = pre ++ post ∧
      (∀ c ∈ pre, AssetCall.isGrant c = false) ∧
      (∀ c ∈ post, AssetCall.isRevoke c = false) ∧
      (∀ p ∈ perms, containsSub p.principal "group" = true →
        AssetCall.revokePermission (get_dataset_id asset all_datasets) p.principal p.actions
          ∈ pre) := by
  refine ⟨AssetCall.describeDataSetPermissions (get_dataset_id asset all_datasets) ::
      (perms.filter (fun p => containsSub p.principal "group")).map
        (fun p => AssetCall.revokePermission (get_dataset_id asset all_datasets)
          p.principal p.actions),
    apply_dataset_governance region asset (get_dataset_id asset all_datasets),
    ?_, ?_, ?_, ?_⟩
  · simp [process_asset, hcat, reset_dataset_permissions, hdesc]
  · intro c hc
    rcases List.mem_cons.mp hc with rfl | hc
    · rfl
    · rcases List.mem_map.mp hc with ⟨p, _, rfl⟩
      rfl
  · intro c hc
    simp only [apply_dataset_governance] at hc
    rcases List.mem_map.mp hc with ⟨g, _, rfl⟩
    rfl
  · intro p hp hgrp
    exact List.mem_cons_of_mem _
      (List.mem_map.mpr ⟨p, List.mem_filter.mpr ⟨hp, hgrp⟩, rfl⟩)

/-- World of the C3 and C9 witnesses: one existing group permission and
one existing user permission whose ARN also contains the word group. -/
def wAssetEx : AssetWorld :=
  ⟨fun _ => Except.ok
    [⟨"arn:aws:quicksight:us-east-1:111122223333:group/default/qs_group_ops",
      ["quicksight:DescribeDataSet"]⟩,
     ⟨"arn:aws:quicksight:us-east-1:111122223333:user/default/group_fans",
      ["quicksight:DescribeDataSet"]⟩]⟩

/-- Dataset asset of the C3 witness. -/
def assetEx : QuickSightAsset :=
  ⟨"dataset_example_1", "dataset", "default", ["qs_group_ops", "qs_group_finance"],
   "READ", "111122223333"⟩

/-- Dataset listing of the C3 witness. -/
def dssEx : List DataSetSummary := [⟨"dataset_example_1", "ds-1"⟩]

/-- Witness for C3 at the concrete asset, listing and world. -/
theorem claim_C3_witness :
    ∃ pre post,
      (process_asset wAssetEx "us-east-1" dssEx assetEx).1 = pre ++ post ∧
      (∀ c ∈ pre, AssetCall.isGrant c = false) ∧
      (∀ c ∈ post, AssetCall.isRevoke c = false) ∧
      (∀ p ∈ [(⟨"arn:aws:quicksight:us-east-1:111122223333:group/default/qs_group_ops",
          ["quicksight:DescribeDataSet"]⟩ : DsPermission),
          ⟨"arn:aws:quicksight:us-east-1:111122223333:user/default/group_fans",
          ["quicksight:DescribeDataSet"]⟩],
        containsSub p.principal "group" = true →
        AssetCall.revokePermission (get_dataset_id assetEx dssEx) p.principal p.actions
          ∈ pre) :=
  claim_C3 wAssetEx "us-east-1" dssEx assetEx _ rfl rfl

/-- Claim C9: a revoke is issued in the reset exactly for the permission
entries whose principal contains the substring "group"; the check is plain
substring membership, so it also selects non-group principals whose ARN
happens to contain it. -/
theorem claim_C9 (w : AssetWorld) (dsId : String) (perms : List DsPermission)
    (P : String) (A : List String)
    (hdesc : w.describePerms dsId = Except.ok perms) :
    AssetCall.revokePermission dsId P A ∈ (reset_dataset_permissions w dsId).1 ↔
      ∃ p, p ∈ perms ∧ p.principal = P ∧ p.actions = A ∧
        containsSub P "group" = true := by
  simp only [reset_dataset_permissions, hdesc, List.mem_cons, List.mem_map,
    List.mem_filter]
  constructor
  · rintro (heq | ⟨p, ⟨hp, hgrp⟩, heq⟩)
    · exact absurd heq (by simp)
    · obtain ⟨-, h2, h3⟩ := AssetCall.revokePermission.inj heq
      exact ⟨p, hp, h2, h3, h2 ▸ hgrp⟩
  · rintro ⟨p, hp, rfl, rfl, hgrp⟩
    exact Or.inr ⟨p, ⟨hp, hgrp⟩, rfl⟩

/-- Witness for C9: the user-principal ARN containing the word group is
revoked by the reset. -/
theorem claim_C9_witness :
    AssetCall.revokePermission "ds-1"
        "arn:aws:quicksight:us-east-1:111122223333:user/default/group_fans"
        ["quicksight:DescribeDataSet"] ∈
      (reset_dataset_permissions wAssetEx "ds-1").1 :=
  (claim_C9 wAssetEx "ds-1" _
      "arn:aws:quicksight:us-east-1:111122223333:user/default/group_fans"
      ["quicksight:DescribeDataSet"] rfl).mpr
    ⟨⟨"arn:aws:quicksight:us-east-1:111122223333:user/default/group_fans",
      ["quicksight:DescribeDataSet"]⟩, by decide, rfl, rfl, by decide⟩

/-- World of the C5 scenario: describing permissions of the empty dataset
id raises InvalidParameterValueException, as the QuickSight API does for a
malformed identifier; the resolvable dataset ds-2 answers normally. -/
def wC5 : AssetWorld :=
  ⟨fun dsId => if dsId = "" then Except.error "InvalidParameterValueException"
               else Except.ok []⟩

/-- First manifest asset of the C5 scenario: its name matches no dataset. -/
def assetC5a : QuickSightAsset :=
  ⟨"missing_ds", "dataset", "default", ["qs_group_ops"], "READ", "111122223333"⟩

/-- Second manifest asset of the C5 scenario: it is resolvable. -/
def assetC5b : QuickSightAsset :=
  ⟨"present_ds", "dataset", "default", ["qs_group_ops"], "READ", "111122223333"⟩

/-- Dataset listing of the C5 scenario: only the second asset matches. -/
def dssC5 : List DataSetSummary := [⟨"present_ds", "ds-2"⟩]

/-- Counterexample for C5: the unresolved first asset yields the empty
identifier, the unguarded describe_data_set_permissions call then raises,
and the whole run stops with the failure status: no call of the second
asset appears in the trace, although processing the second asset alone
would have issued calls.  The run does not continue to the next asset. -/
theorem claim_C5_counterexample :
    get_dataset_id assetC5a dssC5 = "" ∧
    run_asset_governance wC5 "us-east-1" dssC5 [assetC5a, assetC5b] =
      ([AssetCall.describeDataSetPermissions ""], false) ∧
    process_asset wC5 "us-east-1" dssC5 assetC5b =
      ([AssetCall.describeDataSetPermissions "ds-2",
        AssetCall.grantPermission "ds-2"
          "arn:aws:quicksight:us-east-1:111122223333:group/default/qs_group_ops"
          (PyActions.pylist READ_ACTIONS)], true) := by
  decide

/-- Claim C5 as amended: an asset matching no dataset resolves to the
empty identifier; the describe_data_set_permissions call on it is not
inside any try block, so its `ClientError` aborts the entire run with the
failure response instead of continuing to the next asset. -/
theorem claim_C5_amended (w : AssetWorld) (region : String)
    (all_datasets : List DataSetSummary) (asset : QuickSightAsset)
    (rest : List QuickSightAsset) (code : String)
    (hcat : asset.category = "dataset")
    (hnomatch : ∀ d ∈ all_datasets, d.dsName ≠ asset.name)
    (hdesc : w.describePerms "" = Except.error code) :
    get_dataset_id asset all_datasets = "" ∧
    run_asset_governance w region all_datasets (asset :: rest) =
      ([AssetCall.describeDataSetPermissions ""], false) := by
  have hfind : all_datasets.find? (fun dset => dset.dsName = asset.name) = none := by
    refine List.find?_eq_none.mpr ?_
    intro x hx
    simp [hnomatch x hx]
  have hid : get_dataset_id asset all_datasets = "" := by
    unfold get_dataset_id
    rw [hfind]
  refine ⟨hid, ?_⟩
  simp [run_asset_governance, process_asset, hcat, hid, reset_dataset_permissions, hdesc]

/-- Witness for the amended C5 at the concrete scenario. -/
theorem claim_C5_amended_witness :
    get_dataset_id assetC5a dssC5 = "" ∧
    run_asset_governance wC5 "us-east-1" dssC5 [assetC5a, assetC5b] =
      ([AssetCall.describeDataSetPermissions ""], false) :=
  claim_C5_amended wC5 "us-east-1" dssC5 assetC5a [assetC5b]
    "InvalidParameterValueException" rfl (by decide) rfl

/-- Claim C7: when the manifest fetch raises a `ClientError`, each
governance job logs it, treats the manifest as empty and completes with
the success response, issuing no call at all. -/
theorem claim_C7 (cfg : Config) (w : UserWorld) (accountId codeU : String)
    (wa : AssetWorld) (region : String) (all_datasets : List DataSetSummary)
    (accountIdA codeA : String) :
    user_handler cfg w accountId (Except.error codeU) = ([], 200) ∧
    asset_handler wa region all_datasets accountIdA (Except.error codeA) = ([], 200) :=
  ⟨rfl, rfl⟩

/-- Claim C10: in every manifest the fetcher builds, the email of each
record equals its username, both coming from the credentials userName, and
the manifest does not depend on the profile email attribute of the Okta
users, which is never read. -/
theorem claim_C10 (getGroups : String → List OktaApiGroup) (users : List OktaApiUser) :
    (∀ m ∈ build_user_governance_manifest getGroups users, m.email = m.username) ∧
    (∀ m ∈ build_user_governance_manifest getGroups users,
      ∃ usr ∈ users, m.username = usr.credentialsUserName) ∧
    (∀ f : OktaApiUser → String,
      build_user_governance_manifest getGroups
        (users.map (fun usr => OktaApiUser.mk usr.id usr.credentialsUserName (f usr))) =
      build_user_governance_manifest getGroups users) := by
  refine ⟨?_, ?_, ?_⟩
  · intro m hm
    rcases List.mem_map.mp hm with ⟨usr, _, rfl⟩
    rfl
  · intro m hm
    rcases List.mem_map.mp hm with ⟨usr, husr, rfl⟩
    exact ⟨usr, husr, rfl⟩
  · intro f
    simp only [build_user_governance_manifest, List.map_map]
    rfl

/-- Group lookup of the C10 witness. -/
def getGroupsEx : String → List OktaApiGroup := fun _ => [⟨"Everyone"⟩]

/-- Okta API user of the C10 witness: the profile email attribute differs
from the credentials userName. -/
def oktaUsersEx : List OktaApiUser := [⟨"id1", "u@x.com", "other@x.com"⟩]

/-- Witness for C10: the manifest record of the example user has equal
email and username, and rewriting every profile email leaves the manifest
unchanged. -/
theorem claim_C10_witness :
    ManifestUser.email ⟨"u@x.com", "u@x.com", ["Everyone"]⟩ =
      ManifestUser.username ⟨"u@x.com", "u@x.com", ["Everyone"]⟩ ∧
    build_user_governance_manifest getGroupsEx
        (oktaUsersEx.map (fun usr =>
          OktaApiUser.mk usr.id usr.credentialsUserName "spoofed@x.com")) =
      build_user_governance_manifest getGroupsEx oktaUsersEx :=
  ⟨(claim_C10 getGroupsEx oktaUsersEx).1 ⟨"u@x.com", "u@x.com", ["Everyone"]⟩ (by decide),
   (claim_C10 getGroupsEx oktaUsersEx).2.2 (fun _ => "spoofed@x.com")⟩
